import Mathlib

/-!
Shallow embedding of the Yahoo OAuth 2.0 token-lifecycle manager from
`mfl_prop_bets/clients/oauth_client.py` (class `YahooOAuth`), together with
theorems about its token-validity check, refresh, authorization-code
exchange, session construction, authenticated requests, and the JSON-file
credential store.

External effects are modelled as explicit inputs:
  * the wall clock is a parameter `now : Int` (epoch seconds; the Python
    code uses `time.time()` floats, but every claim only compares ages),
  * the token endpoint's answer is a `TokenResponse` value,
  * the success of a file write is a `Bool`,
  * the API endpoint's answer for `make_request` is an `ApiResponse`.
Each operation returns its result together with the post-call in-memory
config and a `CallTrace` counting token-endpoint POSTs, attempted file
writes, and successfully written configs.
-/

namespace MFLPropBets

/-- JSON values as far as the credential file and token responses need
them.  Numbers are modelled as `Int` (the claims only compare timestamps;
the lax numeric-string coercion pydantic would additionally perform on
`token_time` is not modelled, and no claim depends on it). -/
inductive JVal where
  | jstr : String → JVal
  | jnum : Int → JVal
  | jbool : Bool → JVal
  | jnull : JVal
deriving DecidableEq

/-- A JSON object, as an association list of fields. -/
abbrev JObj := List (String × JVal)

/-- Mirrors the pydantic model `OAuthConfig` (oauth_client.py lines 13-22):
  access_token/refresh_token/guid are `str | None = None`,
  consumer_key/consumer_secret are required `str`,
  token_time is `float | None = None`, token_type is `str = "bearer"`. -/
structure OAuthConfig where
  access_token : Option String
  consumer_key : String
  consumer_secret : String
  refresh_token : Option String
  token_time : Option Int
  token_type : String
  guid : Option String
deriving DecidableEq

/-- Python truthiness of an optional string field: `not x` is true when
the field is `None` or the empty string. -/
def optStrTruthy : Option String → Bool
  | none => false
  | some s => !(s == "")

/-- Python truthiness of the optional numeric `token_time`: `not x` is
true when the field is `None` or `0`. -/
def optTimeTruthy : Option Int → Bool
  | none => false
  | some t => !(t == 0)

/-- Error outcomes, one constructor per distinct raise site / message of
`YahooOAuthError` in oauth_client.py. -/
inductive OAuthErr where
  | configNotFound
  | invalidJsonConfig
  | configLoadError
  | noConfigToSave
  | saveError
  | noRefreshToken
  | refreshHttpError : Nat → OAuthErr
  | refreshUnexpected
  | configNotLoaded
  | exchangeError
  | noValidAccessToken
  | requestHttpError : Nat → OAuthErr
  | requestFailed
deriving DecidableEq

/-- Result of an operation: normal return or a raised `YahooOAuthError`. -/
inductive Outcome where
  | ok
  | err : OAuthErr → Outcome
deriving DecidableEq

/-- Body of a 2xx token-endpoint JSON response: each field is `none` when
the key is absent (so `token_data["access_token"]` raises `KeyError`), and
may be present with any string value, including the empty string. -/
structure TokenBody where
  access_token : Option String
  refresh_token : Option String
deriving DecidableEq

/-- The token endpoint's behaviour for one POST: a non-2xx status
(`raise_for_status` throws `HTTPStatusError`), a transport failure, a 2xx
response whose body is not valid JSON, or a parsed 2xx body. -/
inductive TokenResponse where
  | httpError : Nat → TokenResponse
  | transportError : TokenResponse
  | badJson : TokenResponse
  | ok : TokenBody → TokenResponse
deriving DecidableEq

/-- Observable side effects of one operation. `netCalls` counts POSTs to
the token endpoint (attempted ones included), `saveAttempts` counts calls
that reached the file write, `savedConfigs` lists configs actually
persisted. -/
structure CallTrace where
  netCalls : Nat
  saveAttempts : Nat
  savedConfigs : List OAuthConfig
deriving DecidableEq

/-- No side effects. -/
def CallTrace.none : CallTrace := ⟨0, 0, []⟩

/-- Outcome, post-call in-memory config, and side effects of one
state-mutating operation. -/
structure StepResult where
  result : Outcome
  config : Option OAuthConfig
  trace : CallTrace
deriving DecidableEq

/-- Embeds `YahooOAuth.is_token_valid` (lines 108-133): false when no config or
falsy `access_token`, false when falsy `token_time`, else compares the
token age against the 3300-second window (1 hour minus a 5-minute
margin). -/
def is_token_valid (cfg : Option OAuthConfig) (now : Int) : Bool :=
  match cfg with
  | none => false
  | some c =>
    if !(optStrTruthy c.access_token) then false
    else if !(optTimeTruthy c.token_time) then false
    else decide (now - c.token_time.getD 0 < 3300)

/-- Embeds `YahooOAuth.refresh_access_token` (lines 135-191).  Raises
`noRefreshToken` before any network traffic when the config is absent or
`refresh_token` is falsy.  Otherwise POSTs once; a non-2xx status raises
`refreshHttpError`, any other exception (transport, bad JSON, missing
`access_token` key) raises `refreshUnexpected` with the config untouched.
On a parsed body the config is mutated (`access_token`, `token_time`, and
`refresh_token` only when the response carries one) and then saved; a save
failure propagates out of the generic handler as `refreshUnexpected`,
leaving the mutated config in memory. -/
def refresh_access_token (cfg : Option OAuthConfig) (resp : TokenResponse)
    (saveOk : Bool) (now : Int) : StepResult :=
  match cfg with
  | none => ⟨.err .noRefreshToken, none, CallTrace.none⟩
  | some c =>
    if !(optStrTruthy c.refresh_token) then
      ⟨.err .noRefreshToken, some c, CallTrace.none⟩
    else
      match resp with
      | .httpError s => ⟨.err (.refreshHttpError s), some c, ⟨1, 0, []⟩⟩
      | .transportError => ⟨.err .refreshUnexpected, some c, ⟨1, 0, []⟩⟩
      | .badJson => ⟨.err .refreshUnexpected, some c, ⟨1, 0, []⟩⟩
      | .ok body =>
        match body.access_token with
        | none => ⟨.err .refreshUnexpected, some c, ⟨1, 0, []⟩⟩
        | some tok =>
          let c1 : OAuthConfig :=
            { c with access_token := some tok, token_time := some now }
          let c2 : OAuthConfig :=
            match body.refresh_token with
            | some rt => { c1 with refresh_token := some rt }
            | none => c1
          if saveOk then ⟨.ok, some c2, ⟨1, 1, [c2]⟩⟩
          else ⟨.err .refreshUnexpected, some c2, ⟨1, 1, []⟩⟩

/-- Embeds `YahooOAuth.ensure_valid_token` (lines 193-201): refresh exactly when
the current token is not valid. -/
def ensure_valid_token (cfg : Option OAuthConfig) (resp : TokenResponse)
    (saveOk : Bool) (now : Int) : StepResult :=
  if is_token_valid cfg now then ⟨.ok, cfg, CallTrace.none⟩
  else refresh_access_token cfg resp saveOk now

/-- Headers of the authenticated session built by `get_session`
(lines 216-220). -/
structure HttpHeaders where
  authorization : String
  userAgent : String
  accept : String
deriving DecidableEq

/-- The header dictionary `get_session` builds from the current token. -/
def sessionHeaders (tok : String) : HttpHeaders :=
  ⟨"Bearer " ++ tok, "MFL-Prop-Bets/1.0", "application/json"⟩

/-- Outcome of `get_session`: the session's headers when one is returned,
plus the underlying `ensure_valid_token` effects. -/
structure SessionResult where
  headers : Option HttpHeaders
  result : Outcome
  config : Option OAuthConfig
  trace : CallTrace
deriving DecidableEq

/-- Embeds `YahooOAuth.get_session` (lines 203-223): runs `ensure_valid_token`
(exceptions propagate), then raises `noValidAccessToken` when the config
or its `access_token` is falsy, else returns a session with bearer
headers. -/
def get_session (cfg : Option OAuthConfig) (resp : TokenResponse)
    (saveOk : Bool) (now : Int) : SessionResult :=
  let s := ensure_valid_token cfg resp saveOk now
  match s.result with
  | .err e => ⟨none, .err e, s.config, s.trace⟩
  | .ok =>
    match s.config with
    | none => ⟨none, .err .noValidAccessToken, none, s.trace⟩
    | some c =>
      if !(optStrTruthy c.access_token) then
        ⟨none, .err .noValidAccessToken, some c, s.trace⟩
      else
        ⟨some (sessionHeaders (c.access_token.getD "")), .ok, some c, s.trace⟩

/-- The API endpoint's behaviour for the one request `make_request`
issues: 2xx, non-2xx status, or a transport failure. -/
inductive ApiResponse where
  | ok
  | httpError : Nat → ApiResponse
  | transportError : ApiResponse
deriving DecidableEq

/-- Outcome of `make_request`: its result, post-call config, token-side
effects, the number of API requests issued, and the headers they
carried. -/
structure RequestResult where
  result : Outcome
  config : Option OAuthConfig
  trace : CallTrace
  apiCalls : Nat
  headersSent : Option HttpHeaders
deriving DecidableEq

/-- Embeds `YahooOAuth.make_request` (lines 225-255): obtains a session via
`get_session` (failures propagate before any API request), then issues the
request with the session's headers; a non-2xx status raises
`requestHttpError`, any other failure raises `requestFailed`. -/
def make_request (cfg : Option OAuthConfig) (resp : TokenResponse)
    (saveOk : Bool) (now : Int) (api : ApiResponse) : RequestResult :=
  let s := get_session cfg resp saveOk now
  match s.headers with
  | none => ⟨s.result, s.config, s.trace, 0, none⟩
  | some h =>
    match api with
    | .ok => ⟨.ok, s.config, s.trace, 1, some h⟩
    | .httpError st => ⟨.err (.requestHttpError st), s.config, s.trace, 1, some h⟩
    | .transportError => ⟨.err .requestFailed, s.config, s.trace, 1, some h⟩

/-- Embeds `YahooOAuth.exchange_code_for_token` (lines 300-344).  Raises
`configNotLoaded` when no config is loaded.  Otherwise POSTs once; every
failure inside the single try block (non-2xx, transport, bad JSON, missing
`access_token` key, failing save) raises `exchangeError`.  On a parsed
body, `access_token` is set, `refresh_token` is overwritten with
`token_data.get("refresh_token")` (so cleared to `None` when the response
lacks the key), `token_time` is set, and the config is saved. -/
def exchange_code_for_token (cfg : Option OAuthConfig)
    (_code _redirectUri : String) (resp : TokenResponse) (saveOk : Bool)
    (now : Int) : StepResult :=
  match cfg with
  | none => ⟨.err .configNotLoaded, none, CallTrace.none⟩
  | some c =>
    match resp with
    | .httpError _ => ⟨.err .exchangeError, some c, ⟨1, 0, []⟩⟩
    | .transportError => ⟨.err .exchangeError, some c, ⟨1, 0, []⟩⟩
    | .badJson => ⟨.err .exchangeError, some c, ⟨1, 0, []⟩⟩
    | .ok body =>
      match body.access_token with
      | none => ⟨.err .exchangeError, some c, ⟨1, 0, []⟩⟩
      | some tok =>
        let c2 : OAuthConfig :=
          { c with access_token := some tok,
                   refresh_token := body.refresh_token,
                   token_time := some now }
        if saveOk then ⟨.ok, some c2, ⟨1, 1, [c2]⟩⟩
        else ⟨.err .exchangeError, some c2, ⟨1, 1, []⟩⟩

/-! ### The credential store: `_load_config` / `_save_config` -/

/-- State of the backing JSON file as `_load_config` can observe it:
absent, unparsable text, a JSON document that is not an object (so
`OAuthConfig(**data)` raises `TypeError`), or an object. -/
inductive FileContent where
  | missing
  | invalidJson
  | nonObject
  | obj : JObj → FileContent
deriving DecidableEq

/-- Field lookup in a JSON object (first occurrence). -/
def lookupKey (o : JObj) (k : String) : Option JVal := o.lookup k

/-- Pydantic validation of a `str | None = None` field: absent or null
gives `None`, a string is taken as is, anything else is a validation
error. -/
def parseOptStr : Option JVal → Option (Option String)
  | Option.none => some none
  | some .jnull => some none
  | some (.jstr s) => some (some s)
  | some _ => none

/-- Pydantic validation of a required `str` field: only a string is
accepted. -/
def parseReqStr : Option JVal → Option String
  | some (.jstr s) => some s
  | _ => none

/-- Pydantic validation of the `float | None = None` field `token_time`:
absent or null gives `None`, a number is accepted. -/
def parseOptTime : Option JVal → Option (Option Int)
  | Option.none => some none
  | some .jnull => some none
  | some (.jnum n) => some (some n)
  | some _ => none

/-- Pydantic validation of `token_type : str = "bearer"`: absent gives the
default, a string is taken as is, anything else (null included) is a
validation error. -/
def parseTokenType : Option JVal → Option String
  | Option.none => some "bearer"
  | some (.jstr s) => some s
  | some _ => none

/-- Embeds `OAuthConfig(**data)`: validates each known field; unknown keys are
ignored (pydantic's default `extra="ignore"`). -/
def parseConfig (o : JObj) : Option OAuthConfig := do
  let a ← parseOptStr (lookupKey o "access_token")
  let k ← parseReqStr (lookupKey o "consumer_key")
  let s ← parseReqStr (lookupKey o "consumer_secret")
  let r ← parseOptStr (lookupKey o "refresh_token")
  let t ← parseOptTime (lookupKey o "token_time")
  let ty ← parseTokenType (lookupKey o "token_type")
  let g ← parseOptStr (lookupKey o "guid")
  pure ⟨a, k, s, r, t, ty, g⟩

/-- Result of `_load_config`. -/
inductive LoadResult where
  | ok : OAuthConfig → LoadResult
  | err : OAuthErr → LoadResult
deriving DecidableEq

/-- Embeds `YahooOAuth._load_config` (lines 77-92): missing file raises the
not-found error, undecodable JSON raises the invalid-JSON error, and any
other failure (pydantic `ValidationError`, `TypeError`) raises the generic
loading error. -/
def load_config : FileContent → LoadResult
  | .missing => .err .configNotFound
  | .invalidJson => .err .invalidJsonConfig
  | .nonObject => .err .configLoadError
  | .obj o =>
    match parseConfig o with
    | some c => .ok c
    | none => .err .configLoadError

/-- Serialization of an optional string field by `model_dump` +
`json.dump`: `None` becomes JSON null. -/
def dumpOptStr : Option String → JVal
  | none => .jnull
  | some s => .jstr s

/-- Serialization of the optional `token_time`. -/
def dumpOptTime : Option Int → JVal
  | none => .jnull
  | some t => .jnum t

/-- The object `self.config.model_dump()` as written by `json.dump`: every known
field, in declaration order, with null for absent optionals. -/
def dumpConfig (c : OAuthConfig) : JObj :=
  [("access_token", dumpOptStr c.access_token),
   ("consumer_key", .jstr c.consumer_key),
   ("consumer_secret", .jstr c.consumer_secret),
   ("refresh_token", dumpOptStr c.refresh_token),
   ("token_time", dumpOptTime c.token_time),
   ("token_type", .jstr c.token_type),
   ("guid", dumpOptStr c.guid)]

/-- The keys of the persisted record, i.e. the fields of `OAuthConfig`. -/
def knownKeys : List String :=
  ["access_token", "consumer_key", "consumer_secret", "refresh_token",
   "token_time", "token_type", "guid"]

/-- Result of `_save_config`: the object written, or the raised error. -/
inductive SaveResult where
  | ok : JObj → SaveResult
  | err : OAuthErr → SaveResult
deriving DecidableEq

/-- Embeds `YahooOAuth._save_config` (lines 94-106): raises when no config is
loaded, writes `model_dump()` as JSON on success, raises the save error on
an I/O failure. -/
def save_config (cfg : Option OAuthConfig) (ioOk : Bool) : SaveResult :=
  match cfg with
  | none => .err .noConfigToSave
  | some c => if ioOk then .ok (dumpConfig c) else .err .saveError

/-- Two JSON objects have the same content modulo key ordering: every key
of either maps to the same value in both. -/
def objLookupEq (a b : JObj) : Bool :=
  (a.map Prod.fst ++ b.map Prod.fst).all fun k => a.lookup k == b.lookup k

/-- Whether a key holds a JSON string. -/
def isJStr : Option JVal → Bool
  | some (.jstr _) => true
  | _ => false

/-- A token-endpoint interaction that fails before the config could be
mutated: a non-2xx status, a transport failure, an unparsable body, or a
body from which `token_data["access_token"]` raises `KeyError`. -/
def respFailed : TokenResponse → Bool
  | .httpError _ => true
  | .transportError => true
  | .badJson => true
  | .ok body => body.access_token.isNone

/-- The data-model invariant of the spec: `access_token` and
`token_time` are set together or both absent. -/
def tokenPairInv (c : OAuthConfig) : Bool :=
  c.access_token.isSome == c.token_time.isSome

/-- The invariant lifted to a possibly unloaded config. -/
def cfgInv : Option OAuthConfig → Bool
  | none => true
  | some c => tokenPairInv c

end MFLPropBets

namespace MFLPropBets

/-! ### Claim theorems -/

/-- Record used in the counterexample to C1 as stated: `access_token` and
`token_time` are both present and fresh, yet `token_time = 0` is falsy in
Python, so the code refreshes. -/
def c1zeroTimeCfg : OAuthConfig :=
  ⟨some "T", "K", "S", some "R", some 0, "bearer", none⟩

/-- C1 counterexample: a record whose `access_token` and `token_time` are
both present with `now - token_time = 100 < 3300`, for which the claim
predicts zero network calls; `ensure_valid_token` nevertheless performs
one refresh call, because `token_time = 0` fails the code's Python
truthiness test. -/
theorem c1_counterexample :
    c1zeroTimeCfg.access_token.isSome = true ∧
    c1zeroTimeCfg.token_time = some 0 ∧
    ((100 : Int) - 0 < 3300) ∧
    (ensure_valid_token (some c1zeroTimeCfg)
      (TokenResponse.ok ⟨some "T2", none⟩) true 100).trace.netCalls = 1 := by
  decide

/-- C1 (amended): presence read as the code's truthiness (non-empty
`access_token` and `refresh_token`, nonzero `token_time`).  When the
access token and its timestamp are truthy and the age is below 3300
seconds, `ensure_valid_token` performs zero network calls; when the token
is stale, or the access token or timestamp is falsy, and the refresh token
is truthy, it performs exactly one call to the token endpoint. -/
theorem c1_ensure_valid_token_network_calls (c : OAuthConfig)
    (resp : TokenResponse) (saveOk : Bool) (now : Int) :
    (optStrTruthy c.access_token = true → optTimeTruthy c.token_time = true →
      now - c.token_time.getD 0 < 3300 →
      (ensure_valid_token (some c) resp saveOk now).trace.netCalls = 0) ∧
    ((optStrTruthy c.access_token = false ∨ optTimeTruthy c.token_time = false ∨
        3300 ≤ now - c.token_time.getD 0) →
      optStrTruthy c.refresh_token = true →
      (ensure_valid_token (some c) resp saveOk now).trace.netCalls = 1) := by
  constructor
  · intro ha ht hfresh
    have hv : is_token_valid (some c) now = true := by
      simp [is_token_valid, ha, ht, hfresh]
    simp [ensure_valid_token, hv, CallTrace.none]
  · intro hinv hrt
    have hv : is_token_valid (some c) now = false := by
      rcases hinv with h | h | h
      · simp [is_token_valid, h]
      · simp [is_token_valid, h]
      · have hd : (now - c.token_time.getD 0 < 3300) = False := by
          simp only [eq_iff_iff, iff_false, not_lt]
          exact h
        simp [is_token_valid, hd]
    simp only [ensure_valid_token, hv, Bool.false_eq_true, if_false]
    cases resp with
    | httpError s => simp [refresh_access_token, hrt]
    | transportError => simp [refresh_access_token, hrt]
    | badJson => simp [refresh_access_token, hrt]
    | ok body =>
      obtain ⟨ba, br⟩ := body
      cases ba <;> cases br <;> cases saveOk <;>
        simp [refresh_access_token, hrt]

end MFLPropBets

namespace MFLPropBets

/-- Fresh record for the C1 witness (truthy token, age 100). -/
def c1freshCfg : OAuthConfig :=
  ⟨some "T", "K", "S", some "R", some 100, "bearer", none⟩

/-- Stale record for the C1 witness (truthy token, age 4900). -/
def c1staleCfg : OAuthConfig :=
  ⟨some "T", "K", "S", some "R", some 100, "bearer", none⟩

/-- C1 witness: the amended theorem applied to one fresh and one stale
record. -/
theorem c1_witness :
    (ensure_valid_token (some c1freshCfg)
      (TokenResponse.ok ⟨some "T2", none⟩) true 200).trace.netCalls = 0 ∧
    (ensure_valid_token (some c1staleCfg)
      (TokenResponse.ok ⟨some "T2", none⟩) true 5000).trace.netCalls = 1 :=
  ⟨(c1_ensure_valid_token_network_calls c1freshCfg
      (TokenResponse.ok ⟨some "T2", none⟩) true 200).1
      (by decide) (by decide) (by decide),
   (c1_ensure_valid_token_network_calls c1staleCfg
      (TokenResponse.ok ⟨some "T2", none⟩) true 5000).2
      (Or.inr (Or.inr (by decide))) (by decide)⟩

/-- C6: with no loaded config, or a config whose `refresh_token` is
absent, `refresh_access_token` raises the no-refresh-token error, performs
no network call, attempts no save, and leaves the record unchanged. -/
theorem c6_refresh_without_refresh_token (cfg : Option OAuthConfig)
    (resp : TokenResponse) (saveOk : Bool) (now : Int)
    (h : cfg = none ∨ ∃ c, cfg = some c ∧ c.refresh_token = none) :
    (refresh_access_token cfg resp saveOk now).result =
      Outcome.err OAuthErr.noRefreshToken ∧
    (refresh_access_token cfg resp saveOk now).trace.netCalls = 0 ∧
    (refresh_access_token cfg resp saveOk now).trace.saveAttempts = 0 ∧
    (refresh_access_token cfg resp saveOk now).config = cfg := by
  rcases h with rfl | ⟨c, rfl, hc⟩
  · exact ⟨rfl, rfl, rfl, rfl⟩
  · simp [refresh_access_token, optStrTruthy, hc, CallTrace.none]

/-- C6 witness: the theorem applied to a concrete record without a refresh
token. -/
theorem c6_witness :
    (refresh_access_token
      (some ⟨some "T", "K", "S", none, some 5, "bearer", none⟩)
      TokenResponse.transportError true 50).result =
        Outcome.err OAuthErr.noRefreshToken ∧
    (refresh_access_token
      (some ⟨some "T", "K", "S", none, some 5, "bearer", none⟩)
      TokenResponse.transportError true 50).trace.netCalls = 0 ∧
    (refresh_access_token
      (some ⟨some "T", "K", "S", none, some 5, "bearer", none⟩)
      TokenResponse.transportError true 50).trace.saveAttempts = 0 ∧
    (refresh_access_token
      (some ⟨some "T", "K", "S", none, some 5, "bearer", none⟩)
      TokenResponse.transportError true 50).config =
        some ⟨some "T", "K", "S", none, some 5, "bearer", none⟩ :=
  c6_refresh_without_refresh_token _ TokenResponse.transportError true 50
    (Or.inr ⟨_, rfl, rfl⟩)

/-- C7: both state-mutating operations preserve the invariant that
`access_token` and `token_time` are set together or both absent: every
success path sets both, and no failure path sets only one of them. -/
theorem c7_access_token_time_set_together (cfg : Option OAuthConfig)
    (resp : TokenResponse) (saveOk : Bool) (now : Int) (code ruri : String)
    (h : cfgInv cfg = true) :
    cfgInv (refresh_access_token cfg resp saveOk now).config = true ∧
    cfgInv (exchange_code_for_token cfg code ruri resp saveOk now).config
      = true := by
  constructor
  · cases cfg with
    | none => rfl
    | some c =>
      by_cases hrt : optStrTruthy c.refresh_token = true
      · cases resp with
        | httpError s => simpa [refresh_access_token, hrt] using h
        | transportError => simpa [refresh_access_token, hrt] using h
        | badJson => simpa [refresh_access_token, hrt] using h
        | ok body =>
          obtain ⟨ba, br⟩ := body
          cases ba <;> cases br <;> cases saveOk <;>
            simp_all [refresh_access_token, hrt, cfgInv, tokenPairInv]
      · rw [Bool.not_eq_true] at hrt
        simpa [refresh_access_token, hrt] using h
  · cases cfg with
    | none => rfl
    | some c =>
      cases resp with
      | httpError s => simpa [exchange_code_for_token] using h
      | transportError => simpa [exchange_code_for_token] using h
      | badJson => simpa [exchange_code_for_token] using h
      | ok body =>
        obtain ⟨ba, br⟩ := body
        cases ba <;> cases br <;> cases saveOk <;>
          simp_all [exchange_code_for_token, cfgInv, tokenPairInv]

/-- C7 witness: the theorem applied to a concrete record satisfying the
invariant, one refresh and one exchange. -/
theorem c7_witness :
    cfgInv (refresh_access_token
      (some ⟨some "A", "K", "S", some "R", some 10, "bearer", none⟩)
      (TokenResponse.ok ⟨some "B", none⟩) true 60).config = true ∧
    cfgInv (exchange_code_for_token
      (some ⟨some "A", "K", "S", some "R", some 10, "bearer", none⟩)
      "abc123" "https://cb" (TokenResponse.ok ⟨some "B", none⟩) true
      60).config = true :=
  c7_access_token_time_set_together
    (some ⟨some "A", "K", "S", some "R", some 10, "bearer", none⟩)
    (TokenResponse.ok ⟨some "B", none⟩) true 60 "abc123" "https://cb"
    (by decide)

end MFLPropBets

namespace MFLPropBets

/-- Pre-refresh record for the C2 counterexample. -/
def c2preCfg : OAuthConfig :=
  ⟨some "T", "K", "S", some "R", some 100, "bearer", none⟩

/-- C2 counterexample: the token endpoint returns the very token string
"T" the record already holds; the refresh succeeds and persists, and the
persisted `access_token` equals the pre-refresh value — the claim that it
always differs is false. -/
theorem c2_counterexample :
    (refresh_access_token (some c2preCfg)
      (TokenResponse.ok ⟨some "T", none⟩) true 50).result = Outcome.ok ∧
    (refresh_access_token (some c2preCfg)
      (TokenResponse.ok ⟨some "T", none⟩) true 50).trace.savedConfigs =
      [{ c2preCfg with token_time := some 50 }] ∧
    ({ c2preCfg with token_time := some 50 } : OAuthConfig).access_token =
      c2preCfg.access_token := by
  decide

/-- C2 (amended): a refresh whose token-endpoint response succeeds with an
`access_token` field and whose save succeeds updates the record's
`access_token` to the returned token and `token_time` to the refresh time,
overwrites `refresh_token` only when the response carried one, and
persists exactly the updated record before returning; the persisted
`access_token` equals the returned token, so it differs from the
pre-refresh value exactly when the returned token does (the code does not
guarantee the server returns a fresh string). -/
theorem c2_refresh_success_updates_and_persists (c : OAuthConfig)
    (body : TokenBody) (now : Int) (tok : String)
    (hrt : optStrTruthy c.refresh_token = true)
    (hat : body.access_token = some tok) :
    (refresh_access_token (some c) (TokenResponse.ok body) true now).result
      = Outcome.ok ∧
    ∃ c2,
      (refresh_access_token (some c) (TokenResponse.ok body) true
        now).config = some c2 ∧
      c2.access_token = some tok ∧
      c2.token_time = some now ∧
      (∀ rt, body.refresh_token = some rt → c2.refresh_token = some rt) ∧
      (body.refresh_token = none → c2.refresh_token = c.refresh_token) ∧
      (refresh_access_token (some c) (TokenResponse.ok body) true
        now).trace.savedConfigs = [c2] ∧
      (refresh_access_token (some c) (TokenResponse.ok body) true
        now).trace.saveAttempts = 1 ∧
      (some tok ≠ c.access_token → c2.access_token ≠ c.access_token) := by
  obtain ⟨ba, br⟩ := body
  simp only at hat
  subst hat
  cases br with
  | none =>
    refine ⟨by simp [refresh_access_token, hrt],
      { c with access_token := some tok, token_time := some now },
      ?_, rfl, rfl, ?_, ?_, ?_, ?_, ?_⟩ <;>
      simp [refresh_access_token, hrt]
  | some rt =>
    refine ⟨by simp [refresh_access_token, hrt],
      { c with access_token := some tok, token_time := some now,
               refresh_token := some rt },
      ?_, rfl, rfl, ?_, ?_, ?_, ?_, ?_⟩ <;>
      simp [refresh_access_token, hrt]

/-- Record for the C2 witness. -/
def c2wCfg : OAuthConfig :=
  ⟨some "T1", "K", "S", some "R1", some 100, "bearer", none⟩

/-- C2 witness: the amended theorem applied to a concrete record and a
response rotating both tokens. -/
theorem c2_witness :
    (refresh_access_token (some c2wCfg)
      (TokenResponse.ok ⟨some "T2", some "R2"⟩) true 500).result
      = Outcome.ok ∧
    ∃ c2,
      (refresh_access_token (some c2wCfg)
        (TokenResponse.ok ⟨some "T2", some "R2"⟩) true 500).config
        = some c2 ∧
      c2.access_token = some "T2" ∧
      c2.token_time = some 500 ∧
      (∀ rt, (⟨some "T2", some "R2"⟩ : TokenBody).refresh_token = some rt →
        c2.refresh_token = some rt) ∧
      ((⟨some "T2", some "R2"⟩ : TokenBody).refresh_token = none →
        c2.refresh_token = c2wCfg.refresh_token) ∧
      (refresh_access_token (some c2wCfg)
        (TokenResponse.ok ⟨some "T2", some "R2"⟩) true
        500).trace.savedConfigs = [c2] ∧
      (refresh_access_token (some c2wCfg)
        (TokenResponse.ok ⟨some "T2", some "R2"⟩) true
        500).trace.saveAttempts = 1 ∧
      (some "T2" ≠ c2wCfg.access_token →
        c2.access_token ≠ c2wCfg.access_token) :=
  c2_refresh_success_updates_and_persists c2wCfg ⟨some "T2", some "R2"⟩
    500 "T2" (by decide) rfl

/-- Pre-refresh record for the C3 counterexample. -/
def c3preCfg : OAuthConfig :=
  ⟨some "T0", "K", "S", some "R", some 100, "bearer", none⟩

/-- C3 counterexample: a refresh that fails only at the persistence step
raises, but the in-memory record is no longer the pre-call value and a
write to the backing file was attempted — the claim that every failure
leaves the record unchanged with no save performed is false. -/
theorem c3_counterexample :
    (refresh_access_token (some c3preCfg)
      (TokenResponse.ok ⟨some "T1", none⟩) false 200).result ≠ Outcome.ok ∧
    (refresh_access_token (some c3preCfg)
      (TokenResponse.ok ⟨some "T1", none⟩) false 200).config
      ≠ some c3preCfg ∧
    (refresh_access_token (some c3preCfg)
      (TokenResponse.ok ⟨some "T1", none⟩) false 200).trace.saveAttempts
      = 1 := by
  decide

/-- C3 (amended): for every refresh failure occurring before the config is
mutated — non-2xx token-endpoint status, transport failure, unparsable
body, or body without an `access_token` key — the error is raised to the
caller, the in-memory record is unchanged, and no save is attempted.  For
a persistence failure the error is likewise raised (never retried or
swallowed) and nothing was durably saved, but the in-memory record already
holds the new token values and a write was attempted. -/
theorem c3_refresh_failure_no_partial_update (c : OAuthConfig) (now : Int)
    (hrt : optStrTruthy c.refresh_token = true) :
    (∀ resp saveOk, respFailed resp = true →
      (refresh_access_token (some c) resp saveOk now).result ≠ Outcome.ok ∧
      (refresh_access_token (some c) resp saveOk now).config = some c ∧
      (refresh_access_token (some c) resp saveOk now).trace.saveAttempts
        = 0) ∧
    (∀ body tok, body.access_token = some tok →
      (refresh_access_token (some c) (TokenResponse.ok body) false
        now).result = Outcome.err OAuthErr.refreshUnexpected ∧
      (refresh_access_token (some c) (TokenResponse.ok body) false
        now).trace.savedConfigs = [] ∧
      (refresh_access_token (some c) (TokenResponse.ok body) false
        now).trace.saveAttempts = 1 ∧
      (refresh_access_token (some c) (TokenResponse.ok body) false
        now).config =
        some { c with access_token := some tok, token_time := some now,
                      refresh_token :=
                        (match body.refresh_token with
                          | some rt => some rt
                          | none => c.refresh_token) }) := by
  constructor
  · intro resp saveOk hfail
    cases resp with
    | httpError s => simp [refresh_access_token, hrt]
    | transportError => simp [refresh_access_token, hrt]
    | badJson => simp [refresh_access_token, hrt]
    | ok body =>
      obtain ⟨ba, br⟩ := body
      simp only [respFailed, Option.isNone_iff_eq_none] at hfail
      subst hfail
      simp [refresh_access_token, hrt]
  · intro body tok hat
    obtain ⟨ba, br⟩ := body
    simp only at hat
    subst hat
    cases br <;> simp [refresh_access_token, hrt]

/-- Record for the C3 witness. -/
def c3wCfg : OAuthConfig :=
  ⟨some "TA", "K", "S", some "RA", some 40, "bearer", none⟩

/-- C3 witness: the amended theorem applied to a concrete record, once
with an HTTP 401 from the endpoint and once with a failing save. -/
theorem c3_witness :
    ((refresh_access_token (some c3wCfg) (TokenResponse.httpError 401)
        true 300).result ≠ Outcome.ok ∧
      (refresh_access_token (some c3wCfg) (TokenResponse.httpError 401)
        true 300).config = some c3wCfg ∧
      (refresh_access_token (some c3wCfg) (TokenResponse.httpError 401)
        true 300).trace.saveAttempts = 0) ∧
    ((refresh_access_token (some c3wCfg)
        (TokenResponse.ok ⟨some "TB", none⟩) false 300).result
        = Outcome.err OAuthErr.refreshUnexpected ∧
      (refresh_access_token (some c3wCfg)
        (TokenResponse.ok ⟨some "TB", none⟩) false
        300).trace.savedConfigs = [] ∧
      (refresh_access_token (some c3wCfg)
        (TokenResponse.ok ⟨some "TB", none⟩) false
        300).trace.saveAttempts = 1 ∧
      (refresh_access_token (some c3wCfg)
        (TokenResponse.ok ⟨some "TB", none⟩) false 300).config =
        some { c3wCfg with access_token := some "TB",
                           token_time := some 300,
                           refresh_token :=
                             (match (⟨some "TB", none⟩ : TokenBody).refresh_token with
                               | some rt => some rt
                               | none => c3wCfg.refresh_token) }) :=
  ⟨(c3_refresh_failure_no_partial_update c3wCfg 300 (by decide)).1
      (TokenResponse.httpError 401) true (by decide),
   (c3_refresh_failure_no_partial_update c3wCfg 300 (by decide)).2
      ⟨some "TB", none⟩ "TB" rfl⟩

end MFLPropBets

namespace MFLPropBets

/-- The outcome `make_request` reports for an issued request: 2xx returns
the response, a non-2xx status raises `requestHttpError`, any other
failure raises `requestFailed` (oauth_client.py lines 240-255). -/
def apiOutcome : ApiResponse → Outcome
  | .ok => .ok
  | .httpError st => .err (.requestHttpError st)
  | .transportError => .err .requestFailed

/-- Record for the C4 counterexample: stale token, refresh token present. -/
def c4preCfg : OAuthConfig :=
  ⟨some "T", "K", "S", some "R", some 10, "bearer", none⟩

/-- C4 counterexample: the refresh triggered by `ensure_valid_token`
succeeds but installs an empty access token, so `ensure_valid_token`
returns without raising and yet `make_request` issues no request and
raises the no-valid-access-token error — refuting the claim that after a
successful `ensure_valid_token` the request is always issued. -/
theorem c4_counterexample :
    (ensure_valid_token (some c4preCfg) (TokenResponse.ok ⟨some "", none⟩)
      true 4000).result = Outcome.ok ∧
    (make_request (some c4preCfg) (TokenResponse.ok ⟨some "", none⟩) true
      4000 ApiResponse.ok).apiCalls = 0 ∧
    (make_request (some c4preCfg) (TokenResponse.ok ⟨some "", none⟩) true
      4000 ApiResponse.ok).result
      = Outcome.err OAuthErr.noValidAccessToken := by
  decide

/-- C4 (amended): `make_request` first runs `ensure_valid_token`; when
that fails the same error is propagated and no HTTP request is issued.
When it succeeds and the resulting record's access token is non-empty,
exactly one request is issued carrying `Authorization: Bearer <current
access_token>` and the fixed user-agent `MFL-Prop-Bets/1.0`, returning the
response on 2xx and raising a request error on non-2xx status or transport
failure.  When it succeeds but the token installed by the refresh is
empty, no request is issued and the no-valid-access-token error is raised
instead. -/
theorem c4_make_request_flow (cfg : Option OAuthConfig)
    (resp : TokenResponse) (saveOk : Bool) (now : Int) (api : ApiResponse) :
    (∀ e, (ensure_valid_token cfg resp saveOk now).result = Outcome.err e →
      (make_request cfg resp saveOk now api).result = Outcome.err e ∧
      (make_request cfg resp saveOk now api).apiCalls = 0) ∧
    (∀ c, (ensure_valid_token cfg resp saveOk now).result = Outcome.ok →
      (ensure_valid_token cfg resp saveOk now).config = some c →
      optStrTruthy c.access_token = true →
      (make_request cfg resp saveOk now api).apiCalls = 1 ∧
      (make_request cfg resp saveOk now api).headersSent =
        some ⟨"Bearer " ++ c.access_token.getD "", "MFL-Prop-Bets/1.0",
          "application/json"⟩ ∧
      (make_request cfg resp saveOk now api).result = apiOutcome api) ∧
    (∀ c, (ensure_valid_token cfg resp saveOk now).result = Outcome.ok →
      (ensure_valid_token cfg resp saveOk now).config = some c →
      optStrTruthy c.access_token = false →
      (make_request cfg resp saveOk now api).result
        = Outcome.err OAuthErr.noValidAccessToken ∧
      (make_request cfg resp saveOk now api).apiCalls = 0) := by
  refine ⟨?_, ?_, ?_⟩
  · intro e he
    simp [make_request, get_session, he]
  · intro c hok hcfg ht
    cases api <;>
      simp [make_request, get_session, hok, hcfg, ht, sessionHeaders,
        apiOutcome]
  · intro c hok hcfg ht
    simp [make_request, get_session, hok, hcfg, ht]

/-- Record for the C4 witness: currently valid token. -/
def c4wCfg : OAuthConfig :=
  ⟨some "TW", "K", "S", some "RW", some 100, "bearer", none⟩

/-- C4 witness: the amended theorem applied to a fresh record and a 2xx
API response. -/
theorem c4_witness :
    (make_request (some c4wCfg) TokenResponse.badJson true 200
      ApiResponse.ok).apiCalls = 1 ∧
    (make_request (some c4wCfg) TokenResponse.badJson true 200
      ApiResponse.ok).headersSent =
      some ⟨"Bearer " ++ (c4wCfg.access_token.getD ""), "MFL-Prop-Bets/1.0",
        "application/json"⟩ ∧
    (make_request (some c4wCfg) TokenResponse.badJson true 200
      ApiResponse.ok).result = apiOutcome ApiResponse.ok :=
  (c4_make_request_flow (some c4wCfg) TokenResponse.badJson true 200
    ApiResponse.ok).2.1 c4wCfg (by decide) (by decide) (by decide)

/-- Record for the C5 counterexample: a loaded record that still holds a
refresh token. -/
def c5preCfg : OAuthConfig :=
  ⟨none, "K", "S", some "R0", none, "bearer", none⟩

/-- C5 counterexample: exchanging a code against a response with
`access_token "T1"` and no `refresh_token` field clears the record's
previously present refresh token to absent (`token_data.get` returns
`None`), refuting the reading that `refresh_token` is left unchanged. -/
theorem c5_counterexample :
    c5preCfg.refresh_token = some "R0" ∧
    (exchange_code_for_token (some c5preCfg) "abc123" "https://cb"
      (TokenResponse.ok ⟨some "T1", none⟩) true 777).result = Outcome.ok ∧
    (exchange_code_for_token (some c5preCfg) "abc123" "https://cb"
      (TokenResponse.ok ⟨some "T1", none⟩) true 777).config =
      some ⟨some "T1", "K", "S", none, some 777, "bearer", none⟩ := by
  decide

/-- C5 (amended): a successful exchange against a response carrying
`access_token "T1"` and no `refresh_token` yields a record with
`access_token = "T1"`, `token_time` set to the exchange time, and
`refresh_token` overwritten with the response's absent field — hence
absent afterwards, unchanged only when it was already absent — persisted
exactly once; in general a successful exchange sets `access_token`,
`refresh_token` (to the response's field, possibly clearing it), and
`token_time`, and persists the updated record. -/
theorem c5_exchange_code_updates_and_persists (c : OAuthConfig)
    (now : Int) (code ruri : String) :
    ((exchange_code_for_token (some c) code ruri
        (TokenResponse.ok ⟨some "T1", none⟩) true now).result
        = Outcome.ok ∧
      (exchange_code_for_token (some c) code ruri
        (TokenResponse.ok ⟨some "T1", none⟩) true now).config =
        some { c with access_token := some "T1", refresh_token := none,
                      token_time := some now } ∧
      (exchange_code_for_token (some c) code ruri
        (TokenResponse.ok ⟨some "T1", none⟩) true now).trace.saveAttempts
        = 1 ∧
      (exchange_code_for_token (some c) code ruri
        (TokenResponse.ok ⟨some "T1", none⟩) true now).trace.savedConfigs
        = [{ c with access_token := some "T1", refresh_token := none,
                    token_time := some now }]) ∧
    (∀ body tok, body.access_token = some tok →
      (exchange_code_for_token (some c) code ruri (TokenResponse.ok body)
        true now).result = Outcome.ok ∧
      (exchange_code_for_token (some c) code ruri (TokenResponse.ok body)
        true now).config =
        some { c with access_token := some tok,
                      refresh_token := body.refresh_token,
                      token_time := some now } ∧
      (exchange_code_for_token (some c) code ruri (TokenResponse.ok body)
        true now).trace.savedConfigs =
        [{ c with access_token := some tok,
                  refresh_token := body.refresh_token,
                  token_time := some now }]) := by
  constructor
  · simp [exchange_code_for_token]
  · intro body tok hat
    obtain ⟨ba, br⟩ := body
    simp only at hat
    subst hat
    simp [exchange_code_for_token]

/-- Record for the C5 witness: not yet authorized, as in the spec
scenario. -/
def c5wCfg : OAuthConfig := ⟨none, "K", "S", none, none, "bearer", none⟩

/-- C5 witness: the amended theorem's scenario conjunct applied to a
concrete unauthenticated record. -/
theorem c5_witness :
    (exchange_code_for_token (some c5wCfg) "abc123" "https://cb"
      (TokenResponse.ok ⟨some "T1", none⟩) true 999).result
      = Outcome.ok ∧
    (exchange_code_for_token (some c5wCfg) "abc123" "https://cb"
      (TokenResponse.ok ⟨some "T1", none⟩) true 999).config =
      some { c5wCfg with access_token := some "T1", refresh_token := none,
                         token_time := some 999 } ∧
    (exchange_code_for_token (some c5wCfg) "abc123" "https://cb"
      (TokenResponse.ok ⟨some "T1", none⟩) true 999).trace.saveAttempts
      = 1 ∧
    (exchange_code_for_token (some c5wCfg) "abc123" "https://cb"
      (TokenResponse.ok ⟨some "T1", none⟩) true 999).trace.savedConfigs
      = [{ c5wCfg with access_token := some "T1", refresh_token := none,
                       token_time := some 999 }] :=
  (c5_exchange_code_updates_and_persists c5wCfg 999 "abc123"
    "https://cb").1

end MFLPropBets

namespace MFLPropBets

/-- A valid token means a loaded config whose access token and timestamp
are truthy. -/
theorem is_token_valid_some (cfg : Option OAuthConfig) (now : Int)
    (h : is_token_valid cfg now = true) :
    ∃ c, cfg = some c ∧ optStrTruthy c.access_token = true ∧
      optTimeTruthy c.token_time = true := by
  cases cfg with
  | none => simp [is_token_valid] at h
  | some c =>
    refine ⟨c, rfl, ?_, ?_⟩ <;>
    · by_cases h1 : optStrTruthy c.access_token = true <;>
      by_cases h2 : optTimeTruthy c.token_time = true <;>
      simp_all [is_token_valid]

/-- A refresh that returns normally made exactly one network call and
left a config whose `access_token` field is set (to the token string the
endpoint returned, empty or not). -/
theorem refresh_ok_inversion (cfg : Option OAuthConfig)
    (resp : TokenResponse) (saveOk : Bool) (now : Int)
    (h : (refresh_access_token cfg resp saveOk now).result = Outcome.ok) :
    (refresh_access_token cfg resp saveOk now).trace.netCalls = 1 ∧
    ∃ c2 tok, (refresh_access_token cfg resp saveOk now).config = some c2 ∧
      c2.access_token = some tok := by
  cases cfg with
  | none => simp [refresh_access_token] at h
  | some c =>
    by_cases hrt : optStrTruthy c.refresh_token = true
    · cases resp with
      | httpError s => simp [refresh_access_token, hrt] at h
      | transportError => simp [refresh_access_token, hrt] at h
      | badJson => simp [refresh_access_token, hrt] at h
      | ok body =>
        obtain ⟨ba, br⟩ := body
        cases ba with
        | none => simp [refresh_access_token, hrt] at h
        | some tok =>
          cases saveOk with
          | false => simp [refresh_access_token, hrt] at h
          | true =>
            cases br with
            | none =>
              exact ⟨by simp [refresh_access_token, hrt],
                { c with access_token := some tok, token_time := some now },
                tok, by simp [refresh_access_token, hrt], rfl⟩
            | some rt =>
              exact ⟨by simp [refresh_access_token, hrt],
                { c with access_token := some tok, token_time := some now,
                         refresh_token := some rt },
                tok, by simp [refresh_access_token, hrt], rfl⟩
    · rw [Bool.not_eq_true] at hrt
      simp [refresh_access_token, hrt] at h

/-- The function `ensure_valid_token` never raises the no-valid-access-token error
itself; that error can only come from `get_session`. -/
theorem ensure_err_ne_noValidAccessToken (cfg : Option OAuthConfig)
    (resp : TokenResponse) (saveOk : Bool) (now : Int) :
    (ensure_valid_token cfg resp saveOk now).result
      ≠ Outcome.err OAuthErr.noValidAccessToken := by
  by_cases hv : is_token_valid cfg now = true
  · simp [ensure_valid_token, hv]
  · rw [Bool.not_eq_true] at hv
    cases cfg with
    | none => simp [ensure_valid_token, hv, refresh_access_token]
    | some c =>
      by_cases hrt : optStrTruthy c.refresh_token = true
      · cases resp with
        | httpError s =>
          simp [ensure_valid_token, hv, refresh_access_token, hrt]
        | transportError =>
          simp [ensure_valid_token, hv, refresh_access_token, hrt]
        | badJson =>
          simp [ensure_valid_token, hv, refresh_access_token, hrt]
        | ok body =>
          obtain ⟨ba, br⟩ := body
          cases ba <;> cases br <;> cases saveOk <;>
            simp [ensure_valid_token, hv, refresh_access_token, hrt]
      · rw [Bool.not_eq_true] at hrt
        simp [ensure_valid_token, hv, refresh_access_token, hrt]

/-- Record for the C10 counterexample: stale token, refresh token
present. -/
def c10preCfg : OAuthConfig :=
  ⟨some "TT", "K", "S", some "RR", some 20, "bearer", none⟩

/-- C10 counterexample: `ensure_valid_token` returns without raising
(the refresh succeeded), yet the installed access token is the empty
string, so `get_session` reaches the error branch the claim calls
unreachable. -/
theorem c10_counterexample :
    (ensure_valid_token (some c10preCfg) (TokenResponse.ok ⟨some "", none⟩)
      true 9000).result = Outcome.ok ∧
    (get_session (some c10preCfg) (TokenResponse.ok ⟨some "", none⟩) true
      9000).result = Outcome.err OAuthErr.noValidAccessToken := by
  decide

/-- C10 (amended): whenever `ensure_valid_token` returns without raising,
the record's `access_token` field is set, but possibly to the empty
string.  When the token was already valid (no refresh ran), the error
branch of `get_session` is unreachable and a session is returned.  The
no-valid-access-token error is observed exactly when a refresh ran
(one network call) and installed an empty access token. -/
theorem c10_get_session_token_guarantee (cfg : Option OAuthConfig)
    (resp : TokenResponse) (saveOk : Bool) (now : Int) :
    ((ensure_valid_token cfg resp saveOk now).result = Outcome.ok →
      ∃ c, (ensure_valid_token cfg resp saveOk now).config = some c ∧
        c.access_token.isSome = true) ∧
    (is_token_valid cfg now = true →
      (get_session cfg resp saveOk now).result
        ≠ Outcome.err OAuthErr.noValidAccessToken ∧
      (get_session cfg resp saveOk now).headers.isSome = true) ∧
    ((get_session cfg resp saveOk now).result
        = Outcome.err OAuthErr.noValidAccessToken →
      (ensure_valid_token cfg resp saveOk now).trace.netCalls = 1 ∧
      ∃ c, (ensure_valid_token cfg resp saveOk now).config = some c ∧
        c.access_token = some "") := by
  refine ⟨?_, ?_, ?_⟩
  · intro hok
    by_cases hv : is_token_valid cfg now = true
    · obtain ⟨c, rfl, ha, _⟩ := is_token_valid_some cfg now hv
      refine ⟨c, by simp [ensure_valid_token, hv], ?_⟩
      cases hca : c.access_token with
      | none => simp [optStrTruthy, hca] at ha
      | some t => simp
    · have hrw : ensure_valid_token cfg resp saveOk now
          = refresh_access_token cfg resp saveOk now := by
        simp [ensure_valid_token, hv]
      rw [hrw] at hok ⊢
      obtain ⟨_, c2, tok, hc2, htok⟩ :=
        refresh_ok_inversion cfg resp saveOk now hok
      exact ⟨c2, hc2, by simp [htok]⟩
  · intro hv
    obtain ⟨c, rfl, ha, _⟩ := is_token_valid_some cfg now hv
    constructor <;> simp [get_session, ensure_valid_token, hv, ha]
  · intro herr
    rcases hres : (ensure_valid_token cfg resp saveOk now).result with _ | e
    case err =>
      exfalso
      have : e = OAuthErr.noValidAccessToken := by
        simp [get_session, hres] at herr
        exact herr
      exact ensure_err_ne_noValidAccessToken cfg resp saveOk now
        (this ▸ hres)
    case ok =>
      by_cases hv : is_token_valid cfg now = true
      · exfalso
        obtain ⟨c, rfl, ha, _⟩ := is_token_valid_some cfg now hv
        simp [get_session, ensure_valid_token, hv, ha] at herr
      · have hrw : ensure_valid_token cfg resp saveOk now
            = refresh_access_token cfg resp saveOk now := by
          simp [ensure_valid_token, hv]
        rw [hrw] at hres ⊢
        obtain ⟨hnet, c2, tok, hc2, htok⟩ :=
          refresh_ok_inversion cfg resp saveOk now hres
        refine ⟨hnet, c2, hc2, ?_⟩
        by_cases he : tok = ""
        · rw [htok, he]
        · exfalso
          have ha : optStrTruthy c2.access_token = true := by
            simp [optStrTruthy, htok, he]
          have hc2e : (ensure_valid_token cfg resp saveOk now).config
              = some c2 := by rw [hrw]; exact hc2
          have hrese : (ensure_valid_token cfg resp saveOk now).result
              = Outcome.ok := by rw [hrw]; exact hres
          simp [get_session, hrese, hc2e, ha] at herr

/-- Record for the C10 witness: currently valid token. -/
def c10wCfg : OAuthConfig :=
  ⟨some "TV", "K", "S", some "RV", some 150, "bearer", none⟩

/-- C10 witness: the amended theorem applied to a fresh record — the
error branch is not taken and a session is returned. -/
theorem c10_witness :
    (get_session (some c10wCfg) TokenResponse.badJson true 300).result
      ≠ Outcome.err OAuthErr.noValidAccessToken ∧
    (get_session (some c10wCfg) TokenResponse.badJson true
      300).headers.isSome = true :=
  (c10_get_session_token_guarantee (some c10wCfg) TokenResponse.badJson
    true 300).2.1 (by decide)

end MFLPropBets

namespace MFLPropBets

/-- A required string field only validates against a JSON string. -/
theorem parseReqStr_inv (x : Option JVal) (s : String)
    (h : parseReqStr x = some s) : x = some (JVal.jstr s) := by
  cases x with
  | none => simp [parseReqStr] at h
  | some v =>
    cases v with
    | jstr t => simp [parseReqStr] at h; subst h; rfl
    | jnum n => simp [parseReqStr] at h
    | jbool b => simp [parseReqStr] at h
    | jnull => simp [parseReqStr] at h

/-- A successfully validated config took its required fields from string
values present in the file. -/
theorem parseConfig_consumer_fields (o : JObj) (c : OAuthConfig)
    (h : parseConfig o = some c) :
    lookupKey o "consumer_key" = some (JVal.jstr c.consumer_key) ∧
    lookupKey o "consumer_secret" = some (JVal.jstr c.consumer_secret) := by
  simp only [parseConfig, Option.pure_def, Option.bind_eq_bind,
    Option.bind_eq_some, Option.some.injEq] at h
  obtain ⟨a, ha, k, hk, s, hs, r, hr, t, ht, ty, hty, g, hg, hc⟩ := h
  subst hc
  exact ⟨parseReqStr_inv _ _ hk, parseReqStr_inv _ _ hs⟩

/-- C8: loading fails with the not-found error when the file is absent;
it fails with a distinct malformed-config error when the content is not
JSON, or when `consumer_key` or `consumer_secret` is missing or not a
string; on success the record's required fields are exactly the string
values present in the file. -/
theorem c8_load_config_classification (o : JObj) :
    load_config FileContent.missing
      = LoadResult.err OAuthErr.configNotFound ∧
    (load_config FileContent.invalidJson
        = LoadResult.err OAuthErr.invalidJsonConfig ∧
      OAuthErr.invalidJsonConfig ≠ OAuthErr.configNotFound) ∧
    (isJStr (lookupKey o "consumer_key") = false →
      load_config (FileContent.obj o)
        = LoadResult.err OAuthErr.configLoadError) ∧
    (isJStr (lookupKey o "consumer_secret") = false →
      load_config (FileContent.obj o)
        = LoadResult.err OAuthErr.configLoadError) ∧
    OAuthErr.configLoadError ≠ OAuthErr.configNotFound ∧
    (∀ c, load_config (FileContent.obj o) = LoadResult.ok c →
      lookupKey o "consumer_key" = some (JVal.jstr c.consumer_key) ∧
      lookupKey o "consumer_secret"
        = some (JVal.jstr c.consumer_secret)) := by
  refine ⟨rfl, ⟨rfl, by decide⟩, ?_, ?_, by decide, ?_⟩
  · intro hk
    cases hp : parseConfig o with
    | none => simp [load_config, hp]
    | some c =>
      exfalso
      have hck := (parseConfig_consumer_fields o c hp).1
      rw [hck] at hk
      simp [isJStr] at hk
  · intro hs
    cases hp : parseConfig o with
    | none => simp [load_config, hp]
    | some c =>
      exfalso
      have hcs := (parseConfig_consumer_fields o c hp).2
      rw [hcs] at hs
      simp [isJStr] at hs
  · intro c hc
    cases hp : parseConfig o with
    | none => simp [load_config, hp] at hc
    | some c2 =>
      have he : c2 = c := by
        simp only [load_config, hp, LoadResult.ok.injEq] at hc
        exact hc
      subst he
      exact parseConfig_consumer_fields o c2 hp

/-- File object with a non-string `consumer_key`, for the C8 witness. -/
def c8badObj : JObj :=
  [("consumer_key", JVal.jnum 5), ("consumer_secret", JVal.jstr "S")]

/-- Minimal well-formed file object, for the C8 witness. -/
def c8okObj : JObj :=
  [("consumer_key", JVal.jstr "K"), ("consumer_secret", JVal.jstr "S")]

/-- C8 witness: the theorem applied to a file with a wrongly typed
`consumer_key` and to a minimal well-formed file. -/
theorem c8_witness :
    load_config (FileContent.obj c8badObj)
      = LoadResult.err OAuthErr.configLoadError ∧
    (lookupKey c8okObj "consumer_key" = some (JVal.jstr
        (⟨none, "K", "S", none, none, "bearer", none⟩ :
          OAuthConfig).consumer_key) ∧
      lookupKey c8okObj "consumer_secret" = some (JVal.jstr
        (⟨none, "K", "S", none, none, "bearer", none⟩ :
          OAuthConfig).consumer_secret)) :=
  ⟨(c8_load_config_classification c8badObj).2.2.1 (by decide),
   (c8_load_config_classification c8okObj).2.2.2.2.2
     ⟨none, "K", "S", none, none, "bearer", none⟩ (by decide)⟩

end MFLPropBets

namespace MFLPropBets

/-- Prepending a field with a different key does not change a lookup. -/
theorem lookup_cons_ne (o : JObj) (k key : String) (v : JVal)
    (h : (key == k) = false) :
    lookupKey ((k, v) :: o) key = lookupKey o key := by
  simp [lookupKey, List.lookup, h]

/-- Dumping then re-validating an optional string field is the
identity. -/
theorem parseOptStr_dump (a : Option String) :
    parseOptStr (some (dumpOptStr a)) = some a := by
  cases a <;> rfl

/-- Dumping then re-validating the optional timestamp is the identity. -/
theorem parseOptTime_dump (t : Option Int) :
    parseOptTime (some (dumpOptTime t)) = some t := by
  cases t <;> rfl

/-- Re-validating a dumped config gives back the same record. -/
theorem parseConfig_dumpConfig (c : OAuthConfig) :
    parseConfig (dumpConfig c) = some c := by
  obtain ⟨a, k, s, r, t, ty, g⟩ := c
  cases a <;> cases r <;> cases t <;> cases g <;> rfl

/-- Object with an unknown key, for the C9 counterexample. -/
def c9preObj : JObj :=
  [("consumer_key", JVal.jstr "K"), ("consumer_secret", JVal.jstr "S"),
   ("extra_key", JVal.jstr "x")]

/-- The record `c9preObj` loads to. -/
def c9preCfg : OAuthConfig := ⟨none, "K", "S", none, none, "bearer", none⟩

/-- C9 counterexample: a well-formed backing file containing an unknown
key loads successfully, but saving the loaded record writes content that
differs from the original even modulo key ordering — the unknown key is
dropped and absent optional keys are written back as null — refuting the
claim that `save(load())` leaves the content unchanged. -/
theorem c9_counterexample :
    load_config (FileContent.obj c9preObj) = LoadResult.ok c9preCfg ∧
    save_config (some c9preCfg) true = SaveResult.ok (dumpConfig c9preCfg) ∧
    objLookupEq (dumpConfig c9preCfg) c9preObj = false := by
  decide

/-- C9 (amended): unknown keys are ignored on read and all known keys are
written back on save, so `save(load())` replaces the content by the
canonical dump of the loaded record: its keys are exactly the known keys,
reloading it yields the same record (hence a second `save(load())` is a
no-op modulo key ordering), but content with unknown keys or missing
optional keys is not preserved. -/
theorem c9_save_load_round_trip (o : JObj) (c : OAuthConfig) :
    (load_config (FileContent.obj o) = LoadResult.ok c →
      save_config (some c) true = SaveResult.ok (dumpConfig c)) ∧
    (dumpConfig c).map Prod.fst = knownKeys ∧
    load_config (FileContent.obj (dumpConfig c)) = LoadResult.ok c ∧
    (∀ k v, k ∉ knownKeys → parseConfig ((k, v) :: o) = parseConfig o) := by
  refine ⟨fun _ => rfl, rfl, ?_, ?_⟩
  · simp [load_config, parseConfig_dumpConfig]
  · intro k v hk
    have hne : ∀ key, key ∈ knownKeys → (key == k) = false := by
      intro key hkey
      rw [beq_eq_false_iff_ne]
      rintro rfl
      exact hk hkey
    simp only [parseConfig]
    rw [lookup_cons_ne o k "access_token" v (hne _ (by decide)),
      lookup_cons_ne o k "consumer_key" v (hne _ (by decide)),
      lookup_cons_ne o k "consumer_secret" v (hne _ (by decide)),
      lookup_cons_ne o k "refresh_token" v (hne _ (by decide)),
      lookup_cons_ne o k "token_time" v (hne _ (by decide)),
      lookup_cons_ne o k "token_type" v (hne _ (by decide)),
      lookup_cons_ne o k "guid" v (hne _ (by decide))]

/-- Object for the C9 witness. -/
def c9wObj : JObj :=
  [("consumer_key", JVal.jstr "WK"), ("consumer_secret", JVal.jstr "WS"),
   ("access_token", JVal.jstr "WT"), ("token_time", JVal.jnum 7)]

/-- The record `c9wObj` loads to. -/
def c9wCfg : OAuthConfig :=
  ⟨some "WT", "WK", "WS", none, some 7, "bearer", none⟩

/-- C9 witness: the amended theorem applied to a concrete file object and
its loaded record, including an unknown key being ignored on read. -/
theorem c9_witness :
    save_config (some c9wCfg) true = SaveResult.ok (dumpConfig c9wCfg) ∧
    load_config (FileContent.obj (dumpConfig c9wCfg))
      = LoadResult.ok c9wCfg ∧
    parseConfig (("some_unknown", JVal.jbool true) :: c9wObj)
      = parseConfig c9wObj :=
  ⟨(c9_save_load_round_trip c9wObj c9wCfg).1 (by decide),
   (c9_save_load_round_trip c9wObj c9wCfg).2.2.1,
   (c9_save_load_round_trip c9wObj c9wCfg).2.2.2 "some_unknown"
     (JVal.jbool true) (by decide)⟩

end MFLPropBets
